import Mathlib

/-!
Verification development for the `preview-markdown` terminal markdown viewer.

This file gives a shallow embedding of the core interactive components of the
program — the Pager (src `pager.ts`), the Browser and its directory scan
(`src/browser.ts`), the color-scheme detection (`color-scheme.ts`) and the
orchestrator's color-scheme-change handler (`index.ts`) — and proves the
specified properties about them.

Modelling conventions:
- JavaScript numbers are embedded as `Int` (all the arithmetic involved is
  integer arithmetic; `Math.floor(x / 2)` becomes integer division, which on
  `Int` in Lean is floor division for positive divisors, and the JS `%` in the
  search-cursor arithmetic agrees with `Int`'s `%` on every value that occurs).
- `Math.round(x)` on nonnegative rationals is embedded as Mathlib's `round`
  on `ℚ` (both are "floor of x + 1/2").
- Strings are Lean `String`s; `String.prototype.includes` becomes an explicit
  substring test, `toLowerCase` an ASCII-wise lowering (the strings involved —
  key bindings, escape sequences, file extensions — are ASCII).
- Stateful classes become state structures with explicit state-passing; their
  callbacks (`onExit`, `onSuspend`, ...) become an effect list returned next to
  the new state, so "invokes callback X" is observable in the embedding.
- Key matching from the external `pi-tui` library (`matchesKey`, `Key.*`) is
  modelled by the canonical terminal byte sequences for each key; `pi-tui` is
  an external collaborator of the repository, not part of its sources.
- The file system used by the directory scan is an abstract record of
  `readdir` / `stat` / `realpath` functions, so symlink behaviour is expressed
  by concrete model file systems.
-/

/-! ## Generic string helpers -/

/-- Substring test: does `hay` contain `needle` as a contiguous substring?
Embeds JavaScript `hay.includes(needle)` (on the character-list level). -/
def listContainsSub (needle : List Char) : List Char → Bool
  | [] => needle.isEmpty
  | c :: t => needle.isPrefixOf (c :: t) || listContainsSub needle t

/-- `hay.includes(needle)` for Lean strings. -/
def strIncludes (hay needle : String) : Bool :=
  listContainsSub needle.data hay.data

/-- ASCII-wise lower-casing, embedding `String.prototype.toLowerCase` on the
ASCII strings this program compares. -/
def lowerStr (s : String) : String :=
  ⟨s.data.map Char.toLower⟩

/-- `s.startsWith(pre)` on the character-list level. -/
def strStartsWith (s pre : String) : Bool :=
  pre.data.isPrefixOf s.data

/-- Code-point lexicographic three-way comparison. -/
def listCompareChars : List Char → List Char → Int
  | [], [] => 0
  | [], _ :: _ => -1
  | _ :: _, [] => 1
  | a :: as, b :: bs =>
    if a.toNat < b.toNat then -1
    else if b.toNat < a.toNat then 1
    else listCompareChars as bs

/-- `s.split(sep)` for a single-character separator (JS semantics: `""`
splits to `[""]`, separators at the ends produce empty fields). -/
def splitCharAux (sep : Char) : List Char → List Char → List String
  | [], acc => [⟨acc.reverse⟩]
  | c :: t, acc =>
    if c = sep then ⟨acc.reverse⟩ :: splitCharAux sep t []
    else splitCharAux sep t (c :: acc)

/-- `s.split(sep)` for a one-character separator string. -/
def jsSplit (s : String) (sep : Char) : List String :=
  splitCharAux sep s.data []

/-- Character class of the regex `[0-9;]` used by the ANSI-stripping regex. -/
def isAnsiParamChar (ch : Char) : Bool :=
  ch.isDigit || ch == ';'

/-- Embeds `text.replace(/\x1b\[[0-9;]*m/g, "")` (the `stripAnsi` helper of
`pager.ts`): every maximal match of `ESC [ params m` is deleted; an `ESC` that
does not start such a match is kept and scanning resumes one character later,
exactly as the global regex replace does.  The `fuel` argument only makes the
recursion structural: every recursive call shortens the list by at least one
character while spending one unit of fuel, so the caller's `fuel = length`
never runs out (at fuel 0 the list is already empty). -/
def stripAnsiFuel : Nat → List Char → List Char
  | 0, l => l
  | _ + 1, [] => []
  | fuel + 1, '\x1b' :: '[' :: rest2 =>
    match rest2.dropWhile isAnsiParamChar with
    | 'm' :: rest3 => stripAnsiFuel fuel rest3
    | _ => '\x1b' :: stripAnsiFuel fuel ('[' :: rest2)
  | fuel + 1, c :: rest => c :: stripAnsiFuel fuel rest

/-- `stripAnsi` of `pager.ts`, on `String`. -/
def stripAnsi (text : String) : String :=
  ⟨stripAnsiFuel text.data.length text.data⟩

/-! ## Key-sequence model (external `pi-tui` key matching)

The canonical terminal byte sequences for the keys the program matches with
`matchesKey(data, Key.*)`. -/

def isCtrlC (d : String) : Bool := d == "\x03"

def isCtrlZ (d : String) : Bool := d == "\x1a"

def isEscapeKey (d : String) : Bool := d == "\x1b"

def isEnterKey (d : String) : Bool := d == "\r"

def isBackspaceKey (d : String) : Bool := d == "\x7f" || d == "\x08"

def isUpKey (d : String) : Bool := d == "\x1b[A"

def isDownKey (d : String) : Bool := d == "\x1b[B"

def isHomeKey (d : String) : Bool := d == "\x1b[H" || d == "\x1b[1~"

def isEndKey (d : String) : Bool := d == "\x1b[F" || d == "\x1b[4~"

/-- The `PAGE_UP_SEQUENCES` membership test of `pager.ts` / `browser.ts`. -/
def isPageUp (d : String) : Bool := d == "\x1b[5~" || d == "\x1b[5;1~"

/-- The `PAGE_DOWN_SEQUENCES` membership test of `pager.ts` / `browser.ts`. -/
def isPageDown (d : String) : Bool := d == "\x1b[6~" || d == "\x1b[6;1~"

/-- `data.length === 1 && data >= " "` — the printable-character test used by
the search and filter input handlers (single character, code point ≥ 32). -/
def isPrintableChar (d : String) : Bool :=
  match d.data with
  | [c] => 32 ≤ c.toNat
  | _ => false

/-- `COLOR_SCHEME_DARK` of `pager.ts` / `browser.ts`. -/
def COLOR_SCHEME_DARK : String := "\x1b[?997;1n"

/-- `COLOR_SCHEME_LIGHT` of `pager.ts` / `browser.ts`. -/
def COLOR_SCHEME_LIGHT : String := "\x1b[?997;2n"

/-- Does the input data carry a color-scheme change notification (either
variant), as tested first by both input handlers? -/
def isColorSchemeNotification (d : String) : Bool :=
  (d == COLOR_SCHEME_DARK || strIncludes d COLOR_SCHEME_DARK) ||
  (d == COLOR_SCHEME_LIGHT || strIncludes d COLOR_SCHEME_LIGHT)

/-- The `ColorScheme` type (`"light" | "dark"`). -/
inductive ColorScheme where
  | light
  | dark
deriving DecidableEq, Repr

/-! ## Pager (`pager.ts`) -/

/-- Which of the Pager's optional callbacks were supplied in `PagerOptions`
(`onExit` is mandatory). -/
structure PagerCallbacks where
  hasEdit : Bool
  hasReload : Bool
  hasSuspend : Bool
  hasColorSchemeChange : Bool
deriving DecidableEq, Repr

/-- Observable callback invocations of the Pager. -/
inductive PagerEffect where
  | colorSchemeChange (s : ColorScheme)
  | suspend
  | edit (lineNumber : Int)
  | reload
  | exitPager
deriving DecidableEq, Repr

/-- The Pager's mutable fields.  `content` is the external renderable content
component: pure `render(width) -> lines` (spec §6). -/
structure PagerState where
  content : Int → List String
  fileChanged : Bool
  showLineNumbers : Bool
  wrapWidth : Int
  scrollOffset : Int
  cachedLines : List String
  cachedWidth : Int
  viewportHeight : Int
  showingHelp : Bool
  searchMode : Bool
  searchQuery : String
  searchMatches : List Nat
  currentMatchIndex : Int

namespace Pager

/-- `HELP_LINES` of `pager.ts` (8 lines). -/
def HELP_LINES : List String :=
  ["k/up                   g/home  go to top",
   "j/down                 G/end   go to bottom",
   "b/pgup  page up        /       search",
   "f/pgdn  page down      n/N     next/prev match",
   "u  half page up        r       reload file",
   "d  half page down      e       edit in EDITOR",
   "                       ?       toggle help",
   "                       q/esc   quit"]

/-- `LINE_NUMBER_WIDTH` (4 digits + 1 space). -/
def LINE_NUMBER_WIDTH : Int := 5

/-- `getHelpHeight`: help panel lines + 1 for top padding when showing. -/
def getHelpHeight (p : PagerState) : Int :=
  if p.showingHelp then (HELP_LINES.length : Int) + 1 else 0

/-- `getSearchHeight`: the search input takes 1 line when active. -/
def getSearchHeight (p : PagerState) : Int :=
  if p.searchMode then 1 else 0

/-- `getNotificationHeight`: the file-changed banner takes 1 line. -/
def getNotificationHeight (p : PagerState) : Int :=
  if p.fileChanged then 1 else 0

/-- `getContentHeight`: viewport lines left for content after the overlays. -/
def getContentHeight (p : PagerState) : Int :=
  p.viewportHeight - getHelpHeight p - getSearchHeight p - getNotificationHeight p

/-- `getContentWidth`. -/
def getContentWidth (p : PagerState) (width : Int) : Int :=
  let availableWidth := if p.showLineNumbers then width - LINE_NUMBER_WIDTH else width
  if p.wrapWidth > 0 ∧ p.wrapWidth < availableWidth then p.wrapWidth else availableWidth

/-- The state-updating part of `Pager.render` (lines 179–198): re-render the
content cache if the width changed or the cache is empty, then clamp the
scroll offset to `[0, max(0, totalLines - contentHeight)]`.  The remainder of
the method only formats the visible slice into styled output lines and
mutates no state. -/
def render (p : PagerState) (width : Int) : PagerState :=
  let contentWidth := getContentWidth p width
  let p1 :=
    if p.cachedWidth ≠ contentWidth ∨ p.cachedLines.length = 0 then
      { p with cachedLines := p.content contentWidth, cachedWidth := contentWidth }
    else p
  let totalLines : Int := p1.cachedLines.length
  let contentHeight := getContentHeight p1
  let maxScroll := max 0 (totalLines - contentHeight)
  { p1 with scrollOffset := max 0 (min p1.scrollOffset maxScroll) }

/-- Does a rendered line match the query?  `performSearch`'s per-line test:
`stripAnsi(line).toLowerCase().includes(query.toLowerCase())`. -/
def searchLineMatches (query line : String) : Bool :=
  strIncludes (lowerStr (stripAnsi line)) (lowerStr query)

/-- `Pager.performSearch`: reset the matches and cursor, then collect (in
index order) every cached line whose ANSI-stripped lower-cased text contains
the lower-cased query. -/
def performSearch (p : PagerState) : PagerState :=
  let base := { p with searchMatches := ([] : List Nat), currentMatchIndex := (-1 : Int) }
  if p.searchQuery.length = 0 then base
  else
    let ms := base.cachedLines.enum.foldl
      (fun acc pr => if searchLineMatches p.searchQuery pr.2 then acc ++ [pr.1] else acc) []
    { base with searchMatches := ms }

/-- `Pager.scrollToMatch`: center the current match in the viewport, clamped
to the valid scroll range. -/
def scrollToMatch (p : PagerState) : PagerState :=
  if p.currentMatchIndex < 0 ∨ p.searchMatches.length = 0 then p
  else
    match p.searchMatches.get? p.currentMatchIndex.toNat with
    | none => p
    | some matchLine =>
      let contentHeight := getContentHeight p
      let targetOffset := max 0 ((matchLine : Int) - contentHeight / 2)
      let maxScroll := max 0 ((p.cachedLines.length : Int) - contentHeight)
      { p with scrollOffset := min targetOffset maxScroll }

/-- `Pager.goToNextMatch`: no-op when there are no matches, else advance the
match cursor forward circularly and scroll to it. -/
def goToNextMatch (p : PagerState) : PagerState :=
  if p.searchMatches.length = 0 then p
  else
    scrollToMatch
      { p with currentMatchIndex := (p.currentMatchIndex + 1) % (p.searchMatches.length : Int) }

/-- `Pager.goToPrevMatch`: no-op when there are no matches, else move the
match cursor backward circularly and scroll to it. -/
def goToPrevMatch (p : PagerState) : PagerState :=
  if p.searchMatches.length = 0 then p
  else
    scrollToMatch
      { p with currentMatchIndex :=
          (p.currentMatchIndex - 1 + (p.searchMatches.length : Int)) % (p.searchMatches.length : Int) }

/-- `Pager.handleSearchInput` (search-mode key handling). -/
def handleSearchInput (p : PagerState) (data : String) : PagerState :=
  if isEscapeKey data ∨ isCtrlC data then
    { p with searchMode := false, searchQuery := "", searchMatches := [],
             currentMatchIndex := -1 }
  else if isEnterKey data then
    let p1 := { p with searchMode := false }
    if p.searchQuery.length > 0 then goToNextMatch (performSearch p1) else p1
  else if isBackspaceKey data then
    { p with searchQuery := p.searchQuery.dropRight 1 }
  else if isPrintableChar data then
    { p with searchQuery := p.searchQuery ++ data }
  else p

/-- `Pager.handleInput`, with callback invocations returned as effects. -/
def handleInput (cb : PagerCallbacks) (p : PagerState) (data : String) :
    PagerState × List PagerEffect :=
  if data = COLOR_SCHEME_DARK ∨ strIncludes data COLOR_SCHEME_DARK then
    (p, if cb.hasColorSchemeChange then [.colorSchemeChange .dark] else [])
  else if data = COLOR_SCHEME_LIGHT ∨ strIncludes data COLOR_SCHEME_LIGHT then
    (p, if cb.hasColorSchemeChange then [.colorSchemeChange .light] else [])
  else if p.searchMode then
    (handleSearchInput p data, [])
  else if isCtrlZ data then
    (p, if cb.hasSuspend then [.suspend] else [])
  else if data = "?" then
    ({ p with showingHelp := !p.showingHelp }, [])
  else if p.showingHelp then
    ({ p with showingHelp := false }, [])
  else
    let totalLines : Int := p.cachedLines.length
    let contentHeight := getContentHeight p
    let maxScroll := max 0 (totalLines - contentHeight)
    let pageSize := max 1 (contentHeight - 2)
    if data = "/" then
      ({ p with searchMode := true, searchQuery := "" }, [])
    else if data = "n" then (goToNextMatch p, [])
    else if data = "N" then (goToPrevMatch p, [])
    else if data = "e" then
      (p, if cb.hasEdit then [.edit (p.scrollOffset + 1)] else [])
    else if data = "r" ∨ data = "R" then
      (p, if cb.hasReload then [.reload] else [])
    else if isCtrlC data ∨ isEscapeKey data ∨ data = "q" ∨ data = "Q" then
      (p, [.exitPager])
    else if isUpKey data ∨ data = "k" then
      ({ p with scrollOffset := max 0 (p.scrollOffset - 1) }, [])
    else if isDownKey data ∨ data = "j" then
      ({ p with scrollOffset := min maxScroll (p.scrollOffset + 1) }, [])
    else if isPageUp data ∨ data = "b" ∨ data = "B" then
      ({ p with scrollOffset := max 0 (p.scrollOffset - pageSize) }, [])
    else if isPageDown data ∨ data = " " ∨ data = "f" ∨ data = "F" then
      ({ p with scrollOffset := min maxScroll (p.scrollOffset + pageSize) }, [])
    else if isHomeKey data ∨ data = "g" then
      ({ p with scrollOffset := 0 }, [])
    else if isEndKey data ∨ data = "G" then
      ({ p with scrollOffset := maxScroll }, [])
    else if data = "u" ∨ data = "U" then
      ({ p with scrollOffset := max 0 (p.scrollOffset - pageSize / 2) }, [])
    else if data = "d" ∨ data = "D" then
      ({ p with scrollOffset := min maxScroll (p.scrollOffset + pageSize / 2) }, [])
    else (p, [])

/-- Result record of `Pager.getScrollInfo`. -/
structure ScrollInfo where
  current : Int
  total : Int
  percent : Int
deriving DecidableEq, Repr

/-- `Pager.getScrollInfo`: percent is 100 when everything fits, else
`Math.round((scrollOffset / max(1, totalLines - contentHeight)) * 100)`. -/
def getScrollInfo (p : PagerState) : ScrollInfo :=
  let totalLines : Int := p.cachedLines.length
  let contentHeight := getContentHeight p
  let maxScroll : Int := max 1 (totalLines - contentHeight)
  let percent : Int :=
    if totalLines ≤ contentHeight then 100
    else round (((p.scrollOffset : ℚ) / (maxScroll : ℚ)) * 100)
  { current := p.scrollOffset + 1, total := totalLines, percent := percent }

/-- The line the search cursor currently points at (what a `next()`/`prev()`
"visits"): `searchMatches[currentMatchIndex]`. -/
def currentMatchLine (p : PagerState) : Option Nat :=
  if 0 ≤ p.currentMatchIndex then p.searchMatches.get? p.currentMatchIndex.toNat else none

end Pager

/-! ## Browser (`src/browser.ts`) -/

/-- A scanned markdown file (`Entry` of `browser.ts`); timestamps are
milliseconds since the epoch (`Date.getTime()`). -/
structure Entry where
  absolutePath : String
  relativePath : String
  createdAt : Int
  updatedAt : Int
deriving DecidableEq, Repr

/-- `sortKey ∈ ("path" | "created" | "updated")`. -/
inductive SortKey where
  | path
  | created
  | updated
deriving DecidableEq, Repr

/-- `sortDirection ∈ ("asc" | "desc")`. -/
inductive SortDirection where
  | asc
  | desc
deriving DecidableEq, Repr

/-- Observable callback invocations of the Browser. -/
inductive BrowserEffect where
  | colorSchemeChange (s : ColorScheme)
  | openEntry (e : Entry)
  | quit
deriving DecidableEq, Repr

/-- The Browser's mutable fields. -/
structure BrowserState where
  entries : List Entry
  filtered : List Entry
  cursor : Int
  scrollOffset : Int
  viewportHeight : Int
  filterQuery : String
  filterMode : Bool
  showingHelp : Bool
  sortKey : SortKey
  sortDirection : SortDirection
deriving DecidableEq, Repr

/-- `a.localeCompare(b)` modelled as code-point comparison (the relative paths
compared in this program are plain ASCII). -/
def localeCompare (a b : String) : Int :=
  listCompareChars a.data b.data

/-- Stable insertion used to model `Array.prototype.sort` (which is stable):
an element is inserted after every earlier element it does not strictly
precede. -/
def insertSorted {α : Type} (cmp : α → α → Int) (x : α) : List α → List α
  | [] => [x]
  | y :: ys => if cmp x y < 0 then x :: y :: ys else y :: insertSorted cmp x ys

/-- Stable sort by a JS-style comparator (models `arr.sort(comparator)`). -/
def stableSort {α : Type} (cmp : α → α → Int) (l : List α) : List α :=
  l.foldl (fun acc x => insertSorted cmp x acc) []

namespace Browser

/-- `HEADER_HEIGHT` (lines rendered above the file list). -/
def HEADER_HEIGHT : Int := 2

/-- `ITEM_HEIGHT` (lines rendered per list item). -/
def ITEM_HEIGHT : Int := 3

/-- `Browser.getListHeight`. -/
def getListHeight (b : BrowserState) : Int :=
  if b.showingHelp then 0 else max 0 (b.viewportHeight - HEADER_HEIGHT - 1)

/-- `Browser.getVisibleItemCount`: how many 3-line items fit. -/
def getVisibleItemCount (b : BrowserState) : Int :=
  getListHeight b / ITEM_HEIGHT

/-- `Browser.applyFilter`: empty query restores a copy of the full entry
list, otherwise case-insensitive substring match on the relative path; cursor
and scroll reset to 0. -/
def applyFilter (b : BrowserState) : BrowserState :=
  let filtered :=
    if b.filterQuery.length = 0 then b.entries
    else b.entries.filter
      (fun e => strIncludes (lowerStr e.relativePath) (lowerStr b.filterQuery))
  { b with filtered := filtered, cursor := 0, scrollOffset := 0 }

/-- The comparator built inside `Browser.applySort`. -/
def entryComparator (key : SortKey) (dir : SortDirection) (a b : Entry) : Int :=
  let comparison :=
    match key with
    | .path => localeCompare a.relativePath b.relativePath
    | .created => a.createdAt - b.createdAt
    | .updated => a.updatedAt - b.updatedAt
  match dir with
  | .asc => comparison
  | .desc => -comparison

/-- `Browser.applySort`: re-sort the master entry list in place, then
re-apply the active filter. -/
def applySort (b : BrowserState) : BrowserState :=
  applyFilter
    { b with entries := stableSort (entryComparator b.sortKey b.sortDirection) b.entries }

/-- `this.filtered[this.cursor]` (JS indexing: out-of-range gives
`undefined`). -/
def selectedEntry (b : BrowserState) : Option Entry :=
  if 0 ≤ b.cursor then b.filtered.get? b.cursor.toNat else none

/-- `Browser.handleFilterInput` (filter-mode key handling). -/
def handleFilterInput (b : BrowserState) (data : String) : BrowserState :=
  if isEscapeKey data ∨ isCtrlC data then
    applyFilter { b with filterMode := false, filterQuery := "" }
  else if isEnterKey data then
    { b with filterMode := false }
  else if isBackspaceKey data then
    applyFilter { b with filterQuery := b.filterQuery.dropRight 1 }
  else if isPrintableChar data then
    applyFilter { b with filterQuery := b.filterQuery ++ data }
  else b

/-- `Browser.handleInput`, with callback invocations returned as effects.
`hasCSC` records whether the optional `onColorSchemeChange` callback was
supplied. -/
def handleInput (hasCSC : Bool) (b : BrowserState) (data : String) :
    BrowserState × List BrowserEffect :=
  if data = COLOR_SCHEME_DARK ∨ strIncludes data COLOR_SCHEME_DARK then
    (b, if hasCSC then [.colorSchemeChange .dark] else [])
  else if data = COLOR_SCHEME_LIGHT ∨ strIncludes data COLOR_SCHEME_LIGHT then
    (b, if hasCSC then [.colorSchemeChange .light] else [])
  else if b.filterMode then
    (handleFilterInput b data, [])
  else if data = "?" then
    ({ b with showingHelp := !b.showingHelp }, [])
  else if b.showingHelp then
    ({ b with showingHelp := false }, [])
  else if isCtrlC data ∨ data = "q" ∨ data = "Q" ∨ isEscapeKey data then
    (b, [.quit])
  else if data = "/" then
    (applyFilter { b with filterMode := true, filterQuery := "" }, [])
  else if data = "s" ∨ data = "S" then
    (if ¬b.filterMode ∧ ¬b.showingHelp then
       applySort
         { b with sortKey :=
             match b.sortKey with
             | .path => .created
             | .created => .updated
             | .updated => .path }
     else b, [])
  else if data = "r" ∨ data = "R" then
    (if ¬b.filterMode ∧ ¬b.showingHelp then
       applySort
         { b with sortDirection := if b.sortDirection = .asc then .desc else .asc }
     else b, [])
  else if isEnterKey data then
    (b, if b.filtered.length > 0 then
          match selectedEntry b with
          | some e => [.openEntry e]
          | none => []
        else [])
  else
    let pageSize := max 1 (getVisibleItemCount b - 1)
    let maxCursor := max 0 ((b.filtered.length : Int) - 1)
    if isUpKey data ∨ data = "k" then
      ({ b with cursor := max 0 (b.cursor - 1) }, [])
    else if isDownKey data ∨ data = "j" then
      ({ b with cursor := min maxCursor (b.cursor + 1) }, [])
    else if isHomeKey data ∨ data = "g" then
      ({ b with cursor := 0, scrollOffset := 0 }, [])
    else if isEndKey data ∨ data = "G" then
      ({ b with cursor := maxCursor }, [])
    else if isPageUp data ∨ data = "b" ∨ data = "B" then
      ({ b with cursor := max 0 (b.cursor - pageSize) }, [])
    else if isPageDown data ∨ data = "f" ∨ data = "F" ∨ data = " " then
      ({ b with cursor := min maxCursor (b.cursor + pageSize) }, [])
    else (b, [])

end Browser

/-! ## Directory scan (`scanDirectory` of `src/browser.ts`)

The node `fs`/`path` surface is abstracted as a record of functions over
paths-as-component-lists.  `statFollow` is `fs.statSync` (which follows
symlinks); `realpath` is `fs.realpathSync`; failures are `none` (the code's
`try/catch`es). -/

namespace Scan

/-- A filesystem path, as components below some root. -/
abbrev Path := List String

/-- The three `fs.Dirent` shapes the scan distinguishes. -/
inductive DirentKind where
  | file
  | dir
  | symlink
deriving DecidableEq, Repr

/-- A directory entry as returned by `readdirSync(dir, { withFileTypes: true })`. -/
structure Dirent where
  name : String
  kind : DirentKind
deriving DecidableEq, Repr

/-- What a (symlink-following) `statSync` reports. -/
inductive StatKind where
  | file
  | dir
  | other
deriving DecidableEq, Repr

/-- `fs.Stats`, restricted to the fields the scan reads. -/
structure FileStat where
  kind : StatKind
  birthtime : Int
  mtime : Int
deriving DecidableEq, Repr

/-- The filesystem model. -/
structure FileSystem where
  readdir : Path → Option (List Dirent)
  statFollow : Path → Option FileStat
  realpath : Path → Option Path

/-- `MD_EXTENSIONS` of `browser.ts`. -/
def MD_EXTENSIONS : List String := [".md", ".markdown", ".mdx"]

/-- `path.extname(name)`: from the last dot of the (base)name, or empty when
there is no dot or the only dot is leading. -/
def extname (name : String) : String :=
  match ((name.data.enum.filter (fun pr => pr.2 = '.')).map Prod.fst).getLast? with
  | none => ""
  | some 0 => ""
  | some i => ⟨name.data.drop i⟩

/-- Join path components with `/` (used for `absolutePath` and
`path.relative(baseDir, fullPath)`, the latter always being a suffix of the
scanned path here). -/
def joinComponents (l : List String) : String :=
  String.intercalate "/" l

/-- Build the `Entry` pushed by the scan for `fullPath` under `baseDir`. -/
def mkEntry (baseDir fullPath : Path) (birthtime mtime : Int) : Entry :=
  { absolutePath := joinComponents fullPath
    relativePath := joinComponents (fullPath.drop baseDir.length)
    createdAt := birthtime
    updatedAt := mtime }

/-- The scan's accumulating state: the `visitedRealPaths` set (as an
insertion-ordered list) and the collected entries. -/
structure ScanState where
  visitedRealPaths : List Path
  entries : List Entry
deriving DecidableEq, Repr

/-- The `for (const item of items)` loop body of `recurse` (below): skip
hidden names; resolve symlinks via `statSync` (following into directories,
collecting markdown files, skipping broken links); recurse into plain
directories; collect plain markdown files with epoch-timestamp fallback on
stat failure.  `recSub dir depth st` is the enclosing `recurse` one
directory level deeper (passed explicitly so both functions are plainly
structurally recursive). -/
def processItems (fs : FileSystem) (baseDir : Path)
    (recSub : Path → Int → ScanState → ScanState)
    (dir : Path) (currentDepth : Int) : List Dirent → ScanState → ScanState
  | [], st => st
  | item :: rest, st =>
    let st1 :=
      if strStartsWith item.name "." then st
      else
        let fullPath := dir ++ [item.name]
        if item.kind = DirentKind.symlink then
          match fs.statFollow fullPath with
          | none => st
          | some stat =>
            if stat.kind = StatKind.dir then
              recSub fullPath (currentDepth + 1) st
            else if stat.kind = StatKind.file then
              if lowerStr (extname item.name) ∈ MD_EXTENSIONS then
                { st with entries :=
                    st.entries ++ [mkEntry baseDir fullPath stat.birthtime stat.mtime] }
              else st
            else st
        else if item.kind = DirentKind.dir then
          recSub fullPath (currentDepth + 1) st
        else
          if lowerStr (extname item.name) ∈ MD_EXTENSIONS then
            match fs.statFollow fullPath with
            | some stat =>
              { st with entries :=
                  st.entries ++ [mkEntry baseDir fullPath stat.birthtime stat.mtime] }
            | none =>
              { st with entries := st.entries ++ [mkEntry baseDir fullPath 0 0] }
          else st
    processItems fs baseDir recSub dir currentDepth rest st1

/-- The inner `recurse(dir, currentDepth)` of `scanDirectory`: depth guard,
realpath-based cycle detection, then the directory listing processed by
`processItems`.  `fuel` only makes the recursion structural: one unit is
spent per directory level, so the `currentDepth > maxDepth` guard fires
before the caller's `fuel = maxDepth.toNat + 1` can run out. -/
def recurse (fs : FileSystem) (baseDir : Path) (maxDepth : Int) :
    Nat → Path → Int → ScanState → ScanState
  | 0, _, _, st => st
  | Nat.succ fuel, dir, currentDepth, st =>
    if currentDepth > maxDepth then st
    else
      match fs.realpath dir with
      | none => st
      | some realDir =>
        if realDir ∈ st.visitedRealPaths then st
        else
          let st1 := { st with visitedRealPaths := st.visitedRealPaths ++ [realDir] }
          match fs.readdir dir with
          | none => st1
          | some items =>
            processItems fs baseDir (recurse fs baseDir maxDepth fuel)
              dir currentDepth items st1

/-- `scanDirectory(baseDir, maxDepth)`: run the recursion from depth 0 and
sort the result by relative path. -/
def scanDirectory (fs : FileSystem) (baseDir : Path) (maxDepth : Int) : List Entry :=
  let st := recurse fs baseDir maxDepth (maxDepth.toNat + 1) baseDir 0 ⟨[], []⟩
  stableSort (fun a b => localeCompare a.relativePath b.relativePath) st.entries

end Scan

/-! ## Color-scheme detection (`color-scheme.ts`) -/

namespace ColorDetect

/-- The environment variables `detectColorSchemeFromEnv` consults.  `none`
means unset; JS also treats a set-but-empty variable as falsy, which the
definitions below reproduce. -/
structure Env where
  COLORFGBG : Option String
  DARKMODE : Option String
  TERM_PROGRAM : Option String
  ITERM_PROFILE : Option String
deriving DecidableEq, Repr

/-- `parseInt(s, 10)`: skip leading whitespace, optional sign, then the
longest digit prefix; `none` models `NaN` (no digits). -/
def jsParseInt (s : String) : Option Int :=
  let cs := s.data.dropWhile Char.isWhitespace
  let signAndRest : Int × List Char :=
    match cs with
    | '-' :: t => (-1, t)
    | '+' :: t => (1, t)
    | t => (1, t)
  let digits := signAndRest.2.takeWhile Char.isDigit
  if digits.isEmpty then none
  else some (signAndRest.1 * ((digits.foldl (fun acc c => acc * 10 + (c.toNat - 48)) 0 : Nat) : Int))

/-- The `COLORFGBG` step of `detectColorSchemeFromEnv`: split on `;`, parse
the last field as a decimal integer, classify with threshold 7.  `none` falls
through to the next heuristic. -/
def fromCOLORFGBG (env : Env) : Option ColorScheme :=
  match env.COLORFGBG with
  | none => none
  | some s =>
    if s = "" then none
    else
      let parts := jsSplit s ';'
      if parts.length ≥ 2 then
        match jsParseInt (parts.getLast?.getD "") with
        | none => none
        | some bg => if bg < 7 then some .dark else some .light
      else none

/-- `detectColorSchemeFromEnv`: `COLORFGBG`, then the `DARKMODE` override,
then known `TERM_PROGRAM` defaults, then `ITERM_PROFILE` substrings, then the
`dark` default. -/
def detectColorSchemeFromEnv (env : Env) : ColorScheme :=
  match fromCOLORFGBG env with
  | some s => s
  | none =>
    if env.DARKMODE = some "1" then .dark
    else if env.DARKMODE = some "0" then .light
    else if env.TERM_PROGRAM = some "Apple_Terminal" then .light
    else
      match env.ITERM_PROFILE with
      | some p =>
        if p ≠ "" ∧ strIncludes (lowerStr p) "light" then .light
        else if p ≠ "" ∧ strIncludes (lowerStr p) "dark" then .dark
        else .dark
      | none => .dark

/-- The one way the detection path can reject: `queryTerminalColorScheme`
opens by clearing its debug log with a bare `fs.writeFileSync(DEBUG_LOG, "")`
(line 88 of `color-scheme.ts`), before the TTY check and outside any
`try`/`catch` (only the `log` helper guards its own writes), so a failing
write — read-only or full filesystem, a `/tmp/pmd-debug.log` owned by
another user — throws out of the function. -/
inductive JsError where
  | debugLogWriteFailed
deriving DecidableEq, Repr

/-- `queryTerminalColorScheme`: first the unguarded debug-log clear, which
throws when the log file is not writable; then `null` for a non-TTY stdin;
otherwise the OSC-11 round trip, summarised here by its resolved value
`oscReply` — `some scheme` when a parseable reply arrived within the
timeout, `none` on timeout (the listener/timeout machinery only ever calls
`resolve`, never `reject`). -/
def queryTerminalColorScheme (debugLogWritable stdinIsTTY : Bool)
    (oscReply : Option ColorScheme) : Except JsError (Option ColorScheme) :=
  if !debugLogWritable then .error .debugLogWriteFailed
  else if !stdinIsTTY then .ok none
  else .ok oscReply

/-- `detectColorScheme`: awaits the query — a rejection propagates to the
caller (in `index.ts` it reaches `main().catch`, which reports the error and
exits with status 1) — and a `null` result falls back to the environment
heuristics. -/
def detectColorScheme (debugLogWritable stdinIsTTY : Bool)
    (oscReply : Option ColorScheme) (env : Env) : Except JsError ColorScheme :=
  match queryTerminalColorScheme debugLogWritable stdinIsTTY oscReply with
  | .error e => .error e
  | .ok (some s) => .ok s
  | .ok none => .ok (detectColorSchemeFromEnv env)

/-- Does the `ITERM_PROFILE` step match nothing? -/
def itermNoMatch : Option String → Bool
  | none => true
  | some p => !(strIncludes (lowerStr p) "light") && !(strIncludes (lowerStr p) "dark")

/-- "Nothing matches" in the environment fallback: every heuristic step falls
through to the final `dark` default. -/
def envNoMatch (env : Env) : Bool :=
  (fromCOLORFGBG env).isNone &&
  !(env.DARKMODE == some "1") && !(env.DARKMODE == some "0") &&
  !(env.TERM_PROGRAM == some "Apple_Terminal") &&
  itermNoMatch env.ITERM_PROFILE

end ColorDetect

/-! ## Orchestrator color-scheme-change handler (`index.ts`) -/

namespace Orch

/-- Observable actions of `handleColorSchemeChange` beyond its own state
update. -/
inductive OrchEffect where
  | initSyntaxHighlighter
  | rebuildHighlightAndMarkdownTheme
  | setPagerContent (path : String)
  | updateBrowserColors
  | updatePagerColors
  | updateStatusBarColors
  | requestRender
deriving DecidableEq, Repr

/-- The orchestrator state `handleColorSchemeChange` reads and writes.
`Θ` abstracts the resolved-theme value; `pagerActiveShown` is
`activePager && mainSwitcher.getActive() === activePager`. -/
structure OrchState (Θ : Type) where
  currentColorScheme : ColorScheme
  currentTheme : Θ
  browserPresent : Bool
  pagerActiveShown : Bool
  statusBarPresent : Bool
  activeFilePath : Option String

/-- `handleColorSchemeChange`: idempotence guard first; otherwise re-resolve
the theme (`resolveTheme` abstracts `resolveTheme(getThemeName(config,
isDark), isDark)`), rebuild the highlighter and markdown theme, push colors
into the present components (re-reading the active file when shown —
`readFileOk` abstracts whether `readFileSync` succeeds), and request a forced
re-render. -/
def handleColorSchemeChange {Θ : Type} (resolveTheme : Bool → Θ)
    (readFileOk : String → Bool) (st : OrchState Θ) (newScheme : ColorScheme) :
    OrchState Θ × List OrchEffect :=
  if newScheme = st.currentColorScheme then (st, [])
  else
    let isDark := newScheme = ColorScheme.dark
    let st1 := { st with currentColorScheme := newScheme, currentTheme := resolveTheme isDark }
    let effs :=
      [OrchEffect.initSyntaxHighlighter, OrchEffect.rebuildHighlightAndMarkdownTheme]
      ++ (if st.browserPresent then [OrchEffect.updateBrowserColors] else [])
      ++ (if st.pagerActiveShown then
            (match st.activeFilePath with
             | some fp => if readFileOk fp then [OrchEffect.setPagerContent fp] else []
             | none => [])
            ++ [OrchEffect.updatePagerColors]
            ++ (if st.statusBarPresent then [OrchEffect.updateStatusBarColors] else [])
          else [])
      ++ [OrchEffect.requestRender]
    (st1, effs)

end Orch

/-! ## Spec-side definitions (for refinement claims)

These follow the specification's words, to be compared against the embedded
code. -/

/-- Modelled from the spec (§4.2): "`scrollPercent`: 100 if `totalLines ≤
viewportHeight`, else `round(offset / max(1, totalLines - viewportHeight) ×
100)`". -/
def specScrollPercent (offset totalLines viewportHeight : Int) : Int :=
  if totalLines ≤ viewportHeight then 100
  else round ((offset : ℚ) / ((max 1 (totalLines - viewportHeight) : Int) : ℚ) * 100)

/-! ## Concrete example states -/

/-- A 10-line rendered document whose lines 2, 5 and 9 (0-based) contain
"foo" case-insensitively — line 2 only after ANSI stripping. -/
def sampleLines : List String :=
  ["intro", "plain", "ab\x1b[31mFoo\x1b[0mcd", "text", "more",
   "has foo here", "line six", "line seven", "line eight", "FOO line nine"]

/-- A Pager session on `sampleLines` with the confirmed query "FOO" and a
fresh (pre-search) match state. -/
def samplePager : PagerState :=
  { content := fun _ => sampleLines
    fileChanged := false
    showLineNumbers := false
    wrapWidth := 0
    scrollOffset := 0
    cachedLines := sampleLines
    cachedWidth := 80
    viewportHeight := 10
    showingHelp := false
    searchMode := false
    searchQuery := "FOO"
    searchMatches := []
    currentMatchIndex := -1 }

/-- `samplePager` right after `performSearch` (fresh post-search state). -/
def pagerSearched : PagerState := Pager.performSearch samplePager

/-- One, two, three and four `next()` calls from the fresh post-search
state. -/
def pagerNext1 : PagerState := Pager.goToNextMatch pagerSearched

def pagerNext2 : PagerState := Pager.goToNextMatch pagerNext1

def pagerNext3 : PagerState := Pager.goToNextMatch pagerNext2

def pagerNext4 : PagerState := Pager.goToNextMatch pagerNext3

/-- `samplePager` with the help overlay showing. -/
def helpPager : PagerState := { samplePager with showingHelp := true }

/-- All optional Pager callbacks supplied. -/
def allCallbacks : PagerCallbacks :=
  { hasEdit := true, hasReload := true, hasSuspend := true, hasColorSchemeChange := true }

/-- Three scanned entries used by the Browser examples. -/
def sampleEntries : List Entry :=
  [{ absolutePath := "/d/alpha.md", relativePath := "alpha.md", createdAt := 100, updatedAt := 200 },
   { absolutePath := "/d/beta.md", relativePath := "beta.md", createdAt := 300, updatedAt := 400 },
   { absolutePath := "/d/sub/gamma.md", relativePath := "sub/gamma.md", createdAt := 500, updatedAt := 600 }]

/-- A Browser session over `sampleEntries` in its normal state. -/
def sampleBrowser : BrowserState :=
  { entries := sampleEntries
    filtered := sampleEntries
    cursor := 1
    scrollOffset := 0
    viewportHeight := 20
    filterQuery := ""
    filterMode := false
    showingHelp := false
    sortKey := SortKey.path
    sortDirection := SortDirection.asc }

/-- A model filesystem under base directory `b` exercising every symlink
case of the scan: a plain markdown file (`a.md`), a symlinked file
(`ln.md`), a plain subdirectory (`sub`), a symlinked directory (`linkdir`,
real path `ld`) containing a markdown file, and a symlink loop (`loop`,
whose real path is `b`'s own real path `real`). -/
def fsEx : Scan.FileSystem where
  readdir := fun p =>
    if p = ["b"] then
      some [⟨"a.md", .file⟩, ⟨"ln.md", .symlink⟩, ⟨"sub", .dir⟩,
            ⟨"linkdir", .symlink⟩, ⟨"loop", .symlink⟩]
    else if p = ["b", "sub"] then some [⟨"c.md", .file⟩]
    else if p = ["b", "linkdir"] then some [⟨"in.md", .file⟩]
    else none
  statFollow := fun p =>
    if p = ["b", "a.md"] then some ⟨.file, 10, 20⟩
    else if p = ["b", "ln.md"] then some ⟨.file, 30, 40⟩
    else if p = ["b", "sub", "c.md"] then some ⟨.file, 50, 60⟩
    else if p = ["b", "linkdir"] then some ⟨.dir, 0, 0⟩
    else if p = ["b", "linkdir", "in.md"] then some ⟨.file, 70, 80⟩
    else if p = ["b", "loop"] then some ⟨.dir, 0, 0⟩
    else none
  realpath := fun p =>
    if p = ["b"] then some ["real"]
    else if p = ["b", "sub"] then some ["real", "sub"]
    else if p = ["b", "linkdir"] then some ["ld"]
    else if p = ["b", "loop"] then some ["real"]
    else none

/-- A concrete orchestrator state (resolved theme abstracted as `Nat`). -/
def sampleOrch : Orch.OrchState Nat :=
  { currentColorScheme := ColorScheme.dark
    currentTheme := 0
    browserPresent := true
    pagerActiveShown := true
    statusBarPresent := true
    activeFilePath := some "doc.md" }

/-- An environment with none of the fallback variables set. -/
def emptyEnv : ColorDetect.Env :=
  { COLORFGBG := none, DARKMODE := none, TERM_PROGRAM := none, ITERM_PROFILE := none }

/-! ## Key-binding alphabets (for the totality / no-op claims) -/

/-- Every key the Pager's search-mode handler reacts to. -/
def pagerRecognizedSearchKey (d : String) : Bool :=
  isEscapeKey d || isCtrlC d || isEnterKey d || isBackspaceKey d || isPrintableChar d

/-- Every key the Pager's normal-mode handler reacts to. -/
def pagerRecognizedNormalKey (d : String) : Bool :=
  isCtrlZ d || d == "?" || d == "/" || d == "n" || d == "N" || d == "e" ||
  d == "r" || d == "R" ||
  isCtrlC d || isEscapeKey d || d == "q" || d == "Q" ||
  isUpKey d || d == "k" || isDownKey d || d == "j" ||
  isPageUp d || d == "b" || d == "B" ||
  isPageDown d || d == " " || d == "f" || d == "F" ||
  isHomeKey d || d == "g" || isEndKey d || d == "G" ||
  d == "u" || d == "U" || d == "d" || d == "D"

/-- Every key the Browser's filter-mode handler reacts to. -/
def browserRecognizedFilterKey (d : String) : Bool :=
  isEscapeKey d || isCtrlC d || isEnterKey d || isBackspaceKey d || isPrintableChar d

/-- Every key the Browser's normal-mode handler reacts to. -/
def browserRecognizedNormalKey (d : String) : Bool :=
  d == "?" || isCtrlC d || d == "q" || d == "Q" || isEscapeKey d || d == "/" ||
  d == "s" || d == "S" || d == "r" || d == "R" || isEnterKey d ||
  isUpKey d || d == "k" || isDownKey d || d == "j" ||
  isHomeKey d || d == "g" || isEndKey d || d == "G" ||
  isPageUp d || d == "b" || d == "B" ||
  isPageDown d || d == "f" || d == "F" || d == " "

/-- The cursor-movement keys named by the frame claim on the Browser:
j/k, arrow up/down, g/G, Home/End, the page-up/page-down sequences, b/f and
space. -/
def browserMovementKey (d : String) : Bool :=
  d == "j" || d == "k" || isUpKey d || isDownKey d || d == "g" || d == "G" ||
  isHomeKey d || isEndKey d || isPageUp d || isPageDown d ||
  d == "b" || d == "f" || d == " "

/-- `sampleBrowser` with the help overlay showing. -/
def helpBrowser : BrowserState := { sampleBrowser with showingHelp := true }

/-! ## Theorems -/

theorem foldl_append_if_filter (q : String) :
    ∀ (l : List (Nat × String)) (acc : List Nat),
      l.foldl (fun a pr => if Pager.searchLineMatches q pr.2 then a ++ [pr.1] else a) acc
        = acc ++ (l.filter (fun pr => Pager.searchLineMatches q pr.2)).map Prod.fst := by
  intro l
  induction l with
  | nil => intro acc; simp
  | cons a t ih =>
    intro acc
    simp only [List.foldl_cons, List.filter_cons]
    by_cases hf : Pager.searchLineMatches q a.2
    · rw [if_pos hf, ih, if_pos hf]
      simp
    · rw [if_neg hf, ih, if_neg hf]

theorem performSearch_matches_eq (p : PagerState) (h : p.searchQuery ≠ "") :
    (Pager.performSearch p).searchMatches
      = (p.cachedLines.enum.filter
          (fun pr => Pager.searchLineMatches p.searchQuery pr.2)).map Prod.fst := by
  unfold Pager.performSearch
  rw [if_neg (show ¬(p.searchQuery.length = 0) from
    fun hx => h (String.ext (List.length_eq_zero.mp hx)))]
  dsimp only
  rw [foldl_append_if_filter]
  simp

theorem scrollToMatch_currentMatchIndex (p : PagerState) :
    (Pager.scrollToMatch p).currentMatchIndex = p.currentMatchIndex := by
  unfold Pager.scrollToMatch
  split
  · rfl
  · split <;> rfl

theorem enum_pairwise_fst_lt (l : List String) :
    l.enum.Pairwise (fun a b : Nat × String => a.1 < b.1) := by
  have h0 := List.pairwise_lt_range l.length
  rw [← List.enum_map_fst l] at h0
  exact List.pairwise_map.mp h0

/-- C1: confirming a non-empty search query computes `searchMatches` as the
strictly increasing list of exactly those line indices whose ANSI-stripped,
case-folded text contains the case-folded query; with matches present,
`goToNextMatch` advances the cursor forward circularly and `goToPrevMatch`
backward circularly; with no matches both are strict no-ops; and on the
concrete 10-line document with "foo" on lines 2, 5 and 9, searching "FOO"
yields `[2, 5, 9]` and four successive `next()` calls visit lines
2, 5, 9, 2 (wrapping). -/
theorem C1_search_matches_and_circular_navigation :
    (∀ p : PagerState, p.searchQuery ≠ "" →
       ((Pager.performSearch p).searchMatches.Pairwise (· < ·) ∧
        ∀ i : Nat, i ∈ (Pager.performSearch p).searchMatches ↔
          ∃ h : i < p.cachedLines.length,
            Pager.searchLineMatches p.searchQuery (p.cachedLines.get ⟨i, h⟩) = true)) ∧
    (∀ p : PagerState, p.searchMatches ≠ [] →
       (Pager.goToNextMatch p).currentMatchIndex
           = (p.currentMatchIndex + 1) % (p.searchMatches.length : Int) ∧
       (Pager.goToPrevMatch p).currentMatchIndex
           = (p.currentMatchIndex - 1 + (p.searchMatches.length : Int))
               % (p.searchMatches.length : Int)) ∧
    (∀ p : PagerState, p.searchMatches = [] →
       Pager.goToNextMatch p = p ∧ Pager.goToPrevMatch p = p) ∧
    (pagerSearched.searchMatches = [2, 5, 9] ∧
     Pager.currentMatchLine pagerNext1 = some 2 ∧
     Pager.currentMatchLine pagerNext2 = some 5 ∧
     Pager.currentMatchLine pagerNext3 = some 9 ∧
     Pager.currentMatchLine pagerNext4 = some 2) := by
  refine ⟨?_, ?_, ?_, ?_⟩
  · intro p h
    rw [performSearch_matches_eq p h]
    constructor
    · exact List.pairwise_map.mpr
        ((enum_pairwise_fst_lt p.cachedLines).filter _)
    · intro i
      constructor
      · intro hi
        obtain ⟨⟨j, s⟩, hmem, hji⟩ := List.mem_map.mp hi
        obtain ⟨henum, hf⟩ := List.mem_filter.mp hmem
        obtain ⟨hlt, hs⟩ := List.mem_enum henum
        subst hji
        refine ⟨hlt, ?_⟩
        dsimp only at hf
        simp only [List.get_eq_getElem]
        rw [← hs]
        exact hf
      · intro ⟨hlt, hmatch⟩
        apply List.mem_map.mpr
        refine ⟨(i, p.cachedLines.get ⟨i, hlt⟩), ?_, rfl⟩
        apply List.mem_filter.mpr
        constructor
        · have hlen : i < p.cachedLines.enum.length := by
            rw [List.enum_length]
            exact hlt
          have := List.getElem_enum p.cachedLines i hlen
          simp only [List.get_eq_getElem]
          rw [← this]
          exact List.getElem_mem hlen
        · exact hmatch
  · intro p h
    have hne : ¬(p.searchMatches.length = 0) := by
      simp [List.length_eq_zero, h]
    constructor
    · unfold Pager.goToNextMatch
      rw [if_neg hne, scrollToMatch_currentMatchIndex]
    · unfold Pager.goToPrevMatch
      rw [if_neg hne, scrollToMatch_currentMatchIndex]
  · intro p h
    constructor
    · unfold Pager.goToNextMatch
      rw [if_pos (by simp [h])]
    · unfold Pager.goToPrevMatch
      rw [if_pos (by simp [h])]
  · refine ⟨by decide, by decide, by decide, by decide, by decide⟩

/-- C1 witness: the general parts of C1 applied to the concrete sample
session. -/
theorem C1_witness :
    (Pager.performSearch samplePager).searchMatches.Pairwise (· < ·) ∧
    (2 ∈ (Pager.performSearch samplePager).searchMatches ↔
      ∃ h : 2 < samplePager.cachedLines.length,
        Pager.searchLineMatches samplePager.searchQuery
          (samplePager.cachedLines.get ⟨2, h⟩) = true) ∧
    Pager.goToNextMatch { samplePager with searchMatches := [] } =
      { samplePager with searchMatches := [] } :=
  ⟨((C1_search_matches_and_circular_navigation.1 samplePager (by decide)).1),
   ((C1_search_matches_and_circular_navigation.1 samplePager (by decide)).2 2),
   (C1_search_matches_and_circular_navigation.2.2.1
      { samplePager with searchMatches := [] } rfl).1⟩

/-- C2: every `render` call re-clamps the scroll offset into
`[0, max(0, totalLines - viewportHeight)]`, where `totalLines` is the
(possibly re-rendered) content line count and the scroll engine's viewport
height is the Pager's content height (`getContentHeight`, the viewport minus
the overlay rows), for every prior state — including offsets left out of
range by a resize or content reload. -/
theorem C2_render_reclamps_scroll_offset (p : PagerState) (width : Int) :
    0 ≤ (Pager.render p width).scrollOffset ∧
    (Pager.render p width).scrollOffset ≤
      max 0 (((Pager.render p width).cachedLines.length : Int) -
        Pager.getContentHeight (Pager.render p width)) := by
  unfold Pager.render Pager.getContentHeight Pager.getHelpHeight Pager.getSearchHeight
    Pager.getNotificationHeight
  dsimp only
  split
  all_goals
    constructor
    · exact le_max_left 0 _
    · exact max_le (le_max_left 0 _) (le_trans (min_le_right _ _) le_rfl)

/-- C3: the reported scroll percent equals the specification's formula —
100 whenever `totalLines ≤ viewportHeight` (for the scroll engine's viewport
height, i.e. the Pager's content height), regardless of the offset, and
otherwise `round(offset / max(1, totalLines - viewportHeight) × 100)`. -/
theorem C3_scroll_percent_matches_spec (p : PagerState) :
    (Pager.getScrollInfo p).percent =
      specScrollPercent p.scrollOffset (p.cachedLines.length : Int) (Pager.getContentHeight p) ∧
    (((p.cachedLines.length : Int) ≤ Pager.getContentHeight p) →
      (Pager.getScrollInfo p).percent = 100) := by
  constructor
  · rfl
  · intro h
    unfold Pager.getScrollInfo
    simp only [if_pos h]

/-- C3 witness: on the sample session everything fits, so the percent is
100. -/
theorem C3_witness : (Pager.getScrollInfo samplePager).percent = 100 :=
  (C3_scroll_percent_matches_spec samplePager).2 (by decide)

/-- C4 counterexample: while the Pager's help overlay is showing, Ctrl-Z is
handled *before* the any-key-closes-help branch — it invokes the suspend
callback (so it acts on the key) and leaves the overlay showing, so "every
other key closes the overlay ... without otherwise acting" fails at the
concrete input Ctrl-Z (0x1a). -/
theorem C4_counterexample_ctrlz_acts_during_help :
    (Pager.handleInput allCallbacks helpPager "\x1a").1.showingHelp = true ∧
    (Pager.handleInput allCallbacks helpPager "\x1a").2 = [PagerEffect.suspend] := by
  constructor <;> rfl

/-- C4 (amended): while the help overlay is showing, `?` toggles it off and
every other key closes it and returns to Normal without otherwise acting —
except the color-scheme notification sequences (in both components), which
invoke the scheme callback and leave the overlay, and Ctrl-Z (in the Pager),
which invokes the suspend callback and leaves the overlay. -/
theorem C4_amended_help_overlay_closure :
    (∀ (cb : PagerCallbacks) (p : PagerState) (data : String),
       p.showingHelp = true → p.searchMode = false →
       isColorSchemeNotification data = false → isCtrlZ data = false →
       Pager.handleInput cb p data = ({ p with showingHelp := false }, [])) ∧
    (∀ (hasCSC : Bool) (b : BrowserState) (data : String),
       b.showingHelp = true → b.filterMode = false →
       isColorSchemeNotification data = false →
       Browser.handleInput hasCSC b data = ({ b with showingHelp := false }, [])) := by
  constructor
  · intro cb p data hh hs hcs hz
    unfold isColorSchemeNotification at hcs
    simp only [Bool.or_eq_false_iff, beq_eq_false_iff_ne, ne_eq] at hcs
    obtain ⟨⟨hd1, hd2⟩, hl1, hl2⟩ := hcs
    unfold Pager.handleInput
    rw [if_neg (by simp [hd1, hd2]), if_neg (by simp [hl1, hl2])]
    simp only [hs, Bool.false_eq_true, if_false]
    simp only [hz, Bool.false_eq_true, if_false]
    by_cases hq : data = "?"
    · rw [if_pos hq]
      simp [hh]
    · rw [if_neg hq, if_pos hh]
  · intro hasCSC b data hh hf hcs
    unfold isColorSchemeNotification at hcs
    simp only [Bool.or_eq_false_iff, beq_eq_false_iff_ne, ne_eq] at hcs
    obtain ⟨⟨hd1, hd2⟩, hl1, hl2⟩ := hcs
    unfold Browser.handleInput
    rw [if_neg (by simp [hd1, hd2]), if_neg (by simp [hl1, hl2])]
    simp only [hf, Bool.false_eq_true, if_false]
    by_cases hq : data = "?"
    · rw [if_pos hq]
      simp [hh]
    · rw [if_neg hq, if_pos hh]

/-- C4 witness: `j` during the help overlay just closes it, in both
components. -/
theorem C4_witness :
    Pager.handleInput allCallbacks helpPager "j" = ({ helpPager with showingHelp := false }, []) ∧
    Browser.handleInput true helpBrowser "j" = ({ helpBrowser with showingHelp := false }, []) :=
  ⟨C4_amended_help_overlay_closure.1 allCallbacks helpPager "j" rfl rfl (by decide) (by decide),
   C4_amended_help_overlay_closure.2 true helpBrowser "j" rfl rfl (by decide)⟩

/-- C5 counterexample: the scan *does* follow symlinked directories.  In
`fsEx`, `linkdir` is a symlink whose stat resolves to a directory, and the
markdown file inside it is collected — refuting "does not follow symlinked
directories" at this concrete filesystem. -/
theorem C5_counterexample_symlinked_dir_followed :
    "linkdir/in.md" ∈ (Scan.scanDirectory fsEx ["b"] 5).map Entry.relativePath ∧
    (fsEx.readdir ["b"]).getD [] = [⟨"a.md", .file⟩, ⟨"ln.md", .symlink⟩, ⟨"sub", .dir⟩,
      ⟨"linkdir", .symlink⟩, ⟨"loop", .symlink⟩] ∧
    (fsEx.statFollow ["b", "linkdir"]).getD ⟨.other, 0, 0⟩ =
      ⟨Scan.StatKind.dir, 0, 0⟩ := by
  refine ⟨?_, rfl, rfl⟩
  decide

/-- C5 (amended): the scan follows symlinked files (collecting markdown
ones) and also symlinked directories, guarding against symlink loops with
real-path-based visited-set cycle detection: a directory whose real path was
already visited is skipped entirely, and on the concrete filesystem with a
symlinked file, a symlinked directory and a symlink loop the scan terminates
with exactly the four reachable markdown files, sorted by relative path. -/
theorem C5_amended_symlink_behaviour :
    (∀ (fs : Scan.FileSystem) (baseDir : Scan.Path) (maxDepth : Int) (fuel : Nat)
       (dir : Scan.Path) (depth : Int) (st : Scan.ScanState) (r : Scan.Path),
       fs.realpath dir = some r → r ∈ st.visitedRealPaths →
       Scan.recurse fs baseDir maxDepth fuel dir depth st = st) ∧
    (Scan.scanDirectory fsEx ["b"] 5).map Entry.relativePath
      = ["a.md", "linkdir/in.md", "ln.md", "sub/c.md"] := by
  constructor
  · intro fs baseDir maxDepth fuel dir depth st r h1 h2
    cases fuel with
    | zero => rfl
    | succ f =>
      unfold Scan.recurse
      split
      · rfl
      · rw [h1]
        simp only [h2, if_true]
  · decide

/-- C5 witness: the cycle guard applied to the concrete loop in `fsEx`. -/
theorem C5_witness :
    Scan.recurse fsEx ["b"] 5 3 ["b"] 0 ⟨[["real"]], []⟩ = ⟨[["real"]], []⟩ :=
  C5_amended_symlink_behaviour.1 fsEx ["b"] 5 3 ["b"] 0 ⟨[["real"]], []⟩ ["real"]
    (by decide) (by decide)

/-- C6: `applyFilter` always resets cursor and scroll offset to 0; with an
empty query it restores the full entry list in its last-sorted order; with a
non-empty query it keeps exactly the entries whose relative path contains
the query case-insensitively — in particular, a query matching no entry
yields an empty filtered list. -/
theorem C6_apply_filter (b : BrowserState) :
    ((Browser.applyFilter b).cursor = 0 ∧ (Browser.applyFilter b).scrollOffset = 0) ∧
    (b.filterQuery = "" → (Browser.applyFilter b).filtered = b.entries) ∧
    (b.filterQuery ≠ "" →
      (Browser.applyFilter b).filtered =
        b.entries.filter
          (fun e => strIncludes (lowerStr e.relativePath) (lowerStr b.filterQuery))) ∧
    (b.filterQuery ≠ "" →
      (∀ e ∈ b.entries, strIncludes (lowerStr e.relativePath) (lowerStr b.filterQuery) = false) →
      (Browser.applyFilter b).filtered = []) := by
  have hlen : b.filterQuery.length = 0 ↔ b.filterQuery = "" := by
    constructor
    · intro h
      exact String.ext (List.length_eq_zero.mp h)
    · intro h
      rw [h]
      rfl
  refine ⟨⟨rfl, rfl⟩, ?_, ?_, ?_⟩
  · intro h
    unfold Browser.applyFilter
    rw [if_pos (hlen.mpr h)]
  · intro h
    unfold Browser.applyFilter
    rw [if_neg (fun hx => h (hlen.mp hx))]
  · intro h hall
    unfold Browser.applyFilter
    rw [if_neg (fun hx => h (hlen.mp hx))]
    dsimp only
    rw [List.filter_eq_nil_iff]
    intro e he
    simp [hall e he]

/-- C6 witness: a query absent from every relative path empties the filtered
list and resets the cursor; the empty query restores the full list. -/
theorem C6_witness :
    (Browser.applyFilter { sampleBrowser with filterQuery := "zzz" }).filtered = [] ∧
    (Browser.applyFilter { sampleBrowser with filterQuery := "zzz" }).cursor = 0 ∧
    (Browser.applyFilter sampleBrowser).filtered = sampleBrowser.entries :=
  ⟨(C6_apply_filter { sampleBrowser with filterQuery := "zzz" }).2.2.2 (by decide) (by decide),
   (C6_apply_filter { sampleBrowser with filterQuery := "zzz" }).1.1,
   (C6_apply_filter sampleBrowser).2.1 rfl⟩

/-- C7: invoking the orchestrator's color-scheme-change handler with the
currently active scheme returns the state unchanged and performs no effect
at all (no theme re-resolution, no content rebuild, no color pushes, no
forced re-render). -/
theorem C7_color_scheme_change_same_scheme_is_noop {Θ : Type}
    (resolveTheme : Bool → Θ) (readFileOk : String → Bool)
    (st : Orch.OrchState Θ) (newScheme : ColorScheme)
    (h : newScheme = st.currentColorScheme) :
    Orch.handleColorSchemeChange resolveTheme readFileOk st newScheme = (st, []) := by
  unfold Orch.handleColorSchemeChange
  rw [if_pos h]

/-- C7 witness: the guard on a concrete active-pager state. -/
theorem C7_witness :
    Orch.handleColorSchemeChange (fun _ => (1 : Nat)) (fun _ => true) sampleOrch
      ColorScheme.dark = (sampleOrch, []) :=
  C7_color_scheme_change_same_scheme_is_noop (fun _ => (1 : Nat)) (fun _ => true)
    sampleOrch ColorScheme.dark rfl

/-- C8 (code bug): the spec's failure semantics say detection never throws
and an inability to detect resolves to the env-based fallback, but the
unguarded `fs.writeFileSync(DEBUG_LOG, "")` at the top of
`queryTerminalColorScheme` — executed before the TTY check and outside any
`try`/`catch` — rejects when the debug log is not writable, and
`detectColorScheme` propagates the rejection instead of falling back, on a
TTY and on a non-TTY stdin alike.  When the write succeeds, the claimed
behaviour does hold: a non-TTY stdin or a timeout yields exactly the
environment-variable fallback classification, which is `dark` when no
heuristic matches (shown on the concrete empty environment). -/
theorem C8_detection_throws_when_debug_log_unwritable :
    ColorDetect.detectColorScheme false true none emptyEnv
        = Except.error ColorDetect.JsError.debugLogWriteFailed ∧
    ColorDetect.detectColorScheme false false none emptyEnv
        = Except.error ColorDetect.JsError.debugLogWriteFailed ∧
    (∀ (env : ColorDetect.Env) (stdinIsTTY : Bool),
       ColorDetect.detectColorScheme true stdinIsTTY none env
         = Except.ok (ColorDetect.detectColorSchemeFromEnv env)) ∧
    (ColorDetect.envNoMatch emptyEnv = true ∧
     ColorDetect.detectColorSchemeFromEnv emptyEnv = ColorScheme.dark) := by
  refine ⟨rfl, rfl, ?_, by decide, by decide⟩
  intro env stdinIsTTY
  cases stdinIsTTY <;> rfl


/-- C9: both input handlers are total functions of their input (they are
plain Lean functions, so they cannot throw), and any input that is neither a
color-scheme notification nor a recognized key binding of the current mode
leaves the component state unchanged and invokes no callback. -/
theorem C9_unrecognized_input_is_noop :
    (∀ (cb : PagerCallbacks) (p : PagerState) (data : String),
       isColorSchemeNotification data = false →
       p.searchMode = true → pagerRecognizedSearchKey data = false →
       Pager.handleInput cb p data = (p, [])) ∧
    (∀ (cb : PagerCallbacks) (p : PagerState) (data : String),
       isColorSchemeNotification data = false →
       p.searchMode = false → p.showingHelp = false →
       pagerRecognizedNormalKey data = false →
       Pager.handleInput cb p data = (p, [])) ∧
    (∀ (hasCSC : Bool) (b : BrowserState) (data : String),
       isColorSchemeNotification data = false →
       b.filterMode = true → browserRecognizedFilterKey data = false →
       Browser.handleInput hasCSC b data = (b, [])) ∧
    (∀ (hasCSC : Bool) (b : BrowserState) (data : String),
       isColorSchemeNotification data = false →
       b.filterMode = false → b.showingHelp = false →
       browserRecognizedNormalKey data = false →
       Browser.handleInput hasCSC b data = (b, [])) := by
  refine ⟨?_, ?_, ?_, ?_⟩
  · intro cb p data hcs hsm hrec
    simp only [isColorSchemeNotification, Bool.or_eq_false_iff, beq_eq_false_iff_ne,
      ne_eq] at hcs
    obtain ⟨⟨hd1, hd2⟩, hl1, hl2⟩ := hcs
    simp only [pagerRecognizedSearchKey, Bool.or_eq_false_iff] at hrec
    obtain ⟨hrec, hpr⟩ := hrec
    obtain ⟨hrec, hbk⟩ := hrec
    obtain ⟨hrec, hen⟩ := hrec
    obtain ⟨hrec, hc1⟩ := hrec
    have he1 := hrec
    have hsub : Pager.handleSearchInput p data = p := by
      unfold Pager.handleSearchInput
      rw [if_neg (by simp [he1, hc1]), if_neg (by simp [hen]),
        if_neg (by simp [hbk]), if_neg (by simp [hpr])]
    unfold Pager.handleInput
    rw [if_neg (by simp [hd1, hd2]), if_neg (by simp [hl1, hl2]), if_pos hsm, hsub]
  · intro cb p data hcs hsm hsh hrec
    simp only [isColorSchemeNotification, Bool.or_eq_false_iff, beq_eq_false_iff_ne,
      ne_eq] at hcs
    obtain ⟨⟨hd1, hd2⟩, hl1, hl2⟩ := hcs
    simp only [pagerRecognizedNormalKey, Bool.or_eq_false_iff, beq_eq_false_iff_ne,
      ne_eq] at hrec
    obtain ⟨hrec, hD⟩ := hrec
    obtain ⟨hrec, hdlow⟩ := hrec
    obtain ⟨hrec, hU⟩ := hrec
    obtain ⟨hrec, hu⟩ := hrec
    obtain ⟨hrec, hG⟩ := hrec
    obtain ⟨hrec, hend⟩ := hrec
    obtain ⟨hrec, hg⟩ := hrec
    obtain ⟨hrec, hhm⟩ := hrec
    obtain ⟨hrec, hF⟩ := hrec
    obtain ⟨hrec, hf2⟩ := hrec
    obtain ⟨hrec, hsp⟩ := hrec
    obtain ⟨hrec, hpd⟩ := hrec
    obtain ⟨hrec, hB⟩ := hrec
    obtain ⟨hrec, hb⟩ := hrec
    obtain ⟨hrec, hpu⟩ := hrec
    obtain ⟨hrec, hj⟩ := hrec
    obtain ⟨hrec, hdn⟩ := hrec
    obtain ⟨hrec, hk⟩ := hrec
    obtain ⟨hrec, hup⟩ := hrec
    obtain ⟨hrec, hQ2⟩ := hrec
    obtain ⟨hrec, hsq⟩ := hrec
    obtain ⟨hrec, hesc⟩ := hrec
    obtain ⟨hrec, hcc⟩ := hrec
    obtain ⟨hrec, hR⟩ := hrec
    obtain ⟨hrec, hr⟩ := hrec
    obtain ⟨hrec, he⟩ := hrec
    obtain ⟨hrec, hN⟩ := hrec
    obtain ⟨hrec, hn⟩ := hrec
    obtain ⟨hrec, hsl⟩ := hrec
    obtain ⟨hrec, hq⟩ := hrec
    have hcz := hrec
    unfold Pager.handleInput
    rw [if_neg (by simp [hd1, hd2]), if_neg (by simp [hl1, hl2]),
      if_neg (show ¬(p.searchMode = true) by simp [hsm]),
      if_neg (show ¬(isCtrlZ data = true) by simp [hcz]),
      if_neg hq,
      if_neg (show ¬(p.showingHelp = true) by simp [hsh]),
      if_neg hsl, if_neg hn, if_neg hN, if_neg he,
      if_neg (by simp [hr, hR]),
      if_neg (by simp [hcc, hesc, hsq, hQ2]),
      if_neg (by simp [hup, hk]),
      if_neg (by simp [hdn, hj]),
      if_neg (by simp [hpu, hb, hB]),
      if_neg (by simp [hpd, hsp, hf2, hF]),
      if_neg (by simp [hhm, hg]),
      if_neg (by simp [hend, hG]),
      if_neg (by simp [hu, hU]),
      if_neg (by simp [hdlow, hD])]
  · intro hasCSC b data hcs hfm hrec
    simp only [isColorSchemeNotification, Bool.or_eq_false_iff, beq_eq_false_iff_ne,
      ne_eq] at hcs
    obtain ⟨⟨hd1, hd2⟩, hl1, hl2⟩ := hcs
    simp only [browserRecognizedFilterKey, Bool.or_eq_false_iff] at hrec
    obtain ⟨hrec, hpr⟩ := hrec
    obtain ⟨hrec, hbk⟩ := hrec
    obtain ⟨hrec, hen⟩ := hrec
    obtain ⟨hrec, hc1⟩ := hrec
    have he1 := hrec
    have hsub : Browser.handleFilterInput b data = b := by
      unfold Browser.handleFilterInput
      rw [if_neg (by simp [he1, hc1]), if_neg (by simp [hen]),
        if_neg (by simp [hbk]), if_neg (by simp [hpr])]
    unfold Browser.handleInput
    rw [if_neg (by simp [hd1, hd2]), if_neg (by simp [hl1, hl2]), if_pos hfm, hsub]
  · intro hasCSC b data hcs hfm hsh hrec
    simp only [isColorSchemeNotification, Bool.or_eq_false_iff, beq_eq_false_iff_ne,
      ne_eq] at hcs
    obtain ⟨⟨hd1, hd2⟩, hl1, hl2⟩ := hcs
    simp only [browserRecognizedNormalKey, Bool.or_eq_false_iff, beq_eq_false_iff_ne,
      ne_eq] at hrec
    obtain ⟨hrec, hsp⟩ := hrec
    obtain ⟨hrec, hF⟩ := hrec
    obtain ⟨hrec, hf2⟩ := hrec
    obtain ⟨hrec, hpd⟩ := hrec
    obtain ⟨hrec, hB⟩ := hrec
    obtain ⟨hrec, hb⟩ := hrec
    obtain ⟨hrec, hpu⟩ := hrec
    obtain ⟨hrec, hG⟩ := hrec
    obtain ⟨hrec, hend⟩ := hrec
    obtain ⟨hrec, hg⟩ := hrec
    obtain ⟨hrec, hhm⟩ := hrec
    obtain ⟨hrec, hj⟩ := hrec
    obtain ⟨hrec, hdn⟩ := hrec
    obtain ⟨hrec, hk⟩ := hrec
    obtain ⟨hrec, hup⟩ := hrec
    obtain ⟨hrec, hen⟩ := hrec
    obtain ⟨hrec, hR⟩ := hrec
    obtain ⟨hrec, hr⟩ := hrec
    obtain ⟨hrec, hS2⟩ := hrec
    obtain ⟨hrec, hs2⟩ := hrec
    obtain ⟨hrec, hsl⟩ := hrec
    obtain ⟨hrec, hesc⟩ := hrec
    obtain ⟨hrec, hQ2⟩ := hrec
    obtain ⟨hrec, hsq⟩ := hrec
    obtain ⟨hrec, hcc⟩ := hrec
    have hq := hrec
    unfold Browser.handleInput
    rw [if_neg (by simp [hd1, hd2]), if_neg (by simp [hl1, hl2]),
      if_neg (show ¬(b.filterMode = true) by simp [hfm]),
      if_neg hq,
      if_neg (show ¬(b.showingHelp = true) by simp [hsh]),
      if_neg (by simp [hcc, hsq, hQ2, hesc]),
      if_neg hsl,
      if_neg (by simp [hs2, hS2]),
      if_neg (by simp [hr, hR]),
      if_neg (by simp [hen]),
      if_neg (by simp [hup, hk]),
      if_neg (by simp [hdn, hj]),
      if_neg (by simp [hhm, hg]),
      if_neg (by simp [hend, hG]),
      if_neg (by simp [hpu, hb, hB]),
      if_neg (by simp [hpd, hf2, hF, hsp])]

/-- C9 witness: the two-character input `zz` matches nothing and is a
no-op in both components. -/
theorem C9_witness :
    Pager.handleInput allCallbacks samplePager "zz" = (samplePager, []) ∧
    Browser.handleInput true sampleBrowser "zz" = (sampleBrowser, []) :=
  ⟨C9_unrecognized_input_is_noop.2.1 allCallbacks samplePager "zz" (by decide) rfl rfl
     (by decide),
   C9_unrecognized_input_is_noop.2.2.2 true sampleBrowser "zz" (by decide) rfl rfl
     (by decide)⟩


set_option maxHeartbeats 4000000 in
/-- C10: in the Browser's Normal state (no help overlay, no filter mode),
every cursor-movement key changes at most the `cursor` and `scrollOffset`
fields — the first conjunct pins every other field and the effect list —
and, starting from a cursor inside `[0, max(0, filtered.length - 1)]`,
leaves the cursor inside that interval. -/
theorem C10_browser_movement_only_moves_cursor (hasCSC : Bool) (b : BrowserState)
    (data : String) (hsh : b.showingHelp = false) (hfm : b.filterMode = false)
    (hmov : browserMovementKey data = true)
    (hc0 : 0 ≤ b.cursor) (hcmax : b.cursor ≤ max 0 ((b.filtered.length : Int) - 1)) :
    Browser.handleInput hasCSC b data
      = ({ b with cursor := (Browser.handleInput hasCSC b data).1.cursor,
                  scrollOffset := (Browser.handleInput hasCSC b data).1.scrollOffset }, []) ∧
    0 ≤ (Browser.handleInput hasCSC b data).1.cursor ∧
    (Browser.handleInput hasCSC b data).1.cursor ≤ max 0 ((b.filtered.length : Int) - 1) := by
  have hmem : data ∈ ["j", "k", "\x1b[A", "\x1b[B", "g", "G", "\x1b[H", "\x1b[1~",
      "\x1b[F", "\x1b[4~", "\x1b[5~", "\x1b[5;1~", "\x1b[6~", "\x1b[6;1~",
      "b", "f", " "] := by
    simp only [browserMovementKey, isUpKey, isDownKey, isHomeKey, isEndKey, isPageUp,
      isPageDown, Bool.or_eq_true, beq_iff_eq] at hmov
    simp only [List.mem_cons, List.not_mem_nil, or_false]
    tauto
  fin_cases hmem <;> refine ⟨?_, ?_, ?_⟩ <;>
    (simp only [Browser.handleInput]
     simp +decide [hfm, hsh]
     first
       | rfl
       | omega
       | skip)

/-- C10 witness: `j` on the concrete browser session. -/
theorem C10_witness :
    Browser.handleInput true sampleBrowser "j"
      = ({ sampleBrowser with
             cursor := (Browser.handleInput true sampleBrowser "j").1.cursor,
             scrollOffset := (Browser.handleInput true sampleBrowser "j").1.scrollOffset }, []) ∧
    0 ≤ (Browser.handleInput true sampleBrowser "j").1.cursor ∧
    (Browser.handleInput true sampleBrowser "j").1.cursor
      ≤ max 0 ((sampleBrowser.filtered.length : Int) - 1) :=
  C10_browser_movement_only_moves_cursor true sampleBrowser "j" rfl rfl (by decide)
    (by decide) (by decide)
